import Mathlib

/-!
Verification of `src/worker/run_with_job_id.py`.

The script (23 lines) reads `MONGO_URI` from the environment with the
default `mongodb://localhost:27017`, opens database `filesure`, collection
`jobs`, runs `find_one({"jobStatus": "pending"})`, and either prints
`No pending job found.` and exits 0, or prints `Running job: <id>` and runs
`subprocess.run(["python", "downloader.py", job_id])`, then falls off the
end of the module (exit code 0).

The embedding models a stored document as an association list from field
name to the text rendering of the stored value (`str` of the value, so the
`_id` ObjectId appears as its hex string), the collection as a list of
documents in the store's default retrieval order, and one invocation of the
script as a function from a `World` (environment, store reachability, store
contents, exit status of the spawned child) to a `RunResult` recording the
endpoint connected to, the database and collection names used, the trace of
store operations issued, the store contents after applying that trace, the
lines printed, the argument vectors spawned, the child exit statuses waited
for, and the process outcome.
-/

namespace RunWithJobId

/-- A stored document: association list from field name to the text
rendering of the field's value. -/
abbrev Doc := List (String × String)

/-- A collection's records, in the store's default retrieval order. -/
abbrev Store := List Doc

/-- Dictionary lookup `d[k]` on a document: value of the first field named
`k`, if any. -/
def docGet (d : Doc) (k : String) : Option String :=
  (d.find? (fun p => p.1 == k)).map (fun p => p.2)

/-- The query filter of line 13, `{"jobStatus": "pending"}`, as a predicate
on documents. -/
def isPending (d : Doc) : Bool :=
  docGet d "jobStatus" == some "pending"

/-- `collection.find_one(filter)`: the first document of the collection, in
the store's default retrieval order, matching the filter; `None` when no
document matches. -/
def find_one (store : Store) (p : Doc → Bool) : Option Doc :=
  store.find? p

/-- Python truthiness test `not job` on a `find_one` result: `None` and the
empty document are falsy, every nonempty document is truthy. -/
def pyFalsy (job : Option Doc) : Bool :=
  match job with
  | none => true
  | some d => d.isEmpty

/-- Operations a client can issue against the store. The script only ever
issues `findOne`; the other constructors exist so that being read-only is a
property of the emitted trace, not of the vocabulary. -/
inductive StoreOp where
  | findOne (key val : String)
  | insertOne (d : Doc)
  | updateOne (key val setKey setVal : String)
  | deleteOne (key val : String)
  | acquireLock (lockName : String)
deriving DecidableEq

/-- An operation is a pure read exactly when it is a `findOne`. -/
def StoreOp.isRead : StoreOp → Bool
  | .findOne _ _ => true
  | _ => false

/-- Set field `k` of a document to `v` (replace in place, or append). -/
def setField (d : Doc) (k v : String) : Doc :=
  if (d.find? (fun p => p.1 == k)).isSome then
    d.map (fun p => if p.1 == k then (k, v) else p)
  else
    d ++ [(k, v)]

/-- Update the first document matching `key = val`, setting `setKey` to
`setVal`. -/
def updateFirstMatching (s : Store) (key val setKey setVal : String) : Store :=
  match s with
  | [] => []
  | d :: rest =>
    if docGet d key == some val then setField d setKey setVal :: rest
    else d :: updateFirstMatching rest key val setKey setVal

/-- Delete the first document matching `key = val`. -/
def deleteFirstMatching (s : Store) (key val : String) : Store :=
  match s with
  | [] => []
  | d :: rest =>
    if docGet d key == some val then rest
    else d :: deleteFirstMatching rest key val

/-- State transformer of one store operation on the record set: reads and
lock acquisitions leave the records unchanged, writes mutate them. -/
def applyOp (s : Store) : StoreOp → Store
  | .findOne _ _ => s
  | .insertOne d => s ++ [d]
  | .updateOne key val setKey setVal => updateFirstMatching s key val setKey setVal
  | .deleteOne key val => deleteFirstMatching s key val
  | .acquireLock _ => s

/-- State transformer of a trace of store operations. -/
def applyOps (s : Store) (ops : List StoreOp) : Store :=
  ops.foldl applyOp s

/-- `os.environ.get(k, dflt)` over an environment modelled as an
association list. -/
def envGet (env : List (String × String)) (k dflt : String) : String :=
  match env.find? (fun p => p.1 == k) with
  | some p => p.2
  | none => dflt

/-- How one invocation of the script ends: normal termination with an exit
code, or abnormal termination by an uncaught exception carrying a
runtime-produced diagnostic. -/
inductive Outcome where
  | exited (code : Nat)
  | crashed (diagnostic : String)
deriving DecidableEq

/-- Everything outside the script that one invocation can observe:
the process environment, whether the store is reachable (so the one query
succeeds), the diagnostic the runtime would raise when it is not, the
collection's records in default retrieval order, and the exit status the
spawned downloader child would terminate with. -/
structure World where
  env : List (String × String)
  storeUp : Bool
  diag : String
  store : Store
  childExit : Nat
deriving DecidableEq

/-- Observable result of lines 15-23 (everything after the query). -/
structure PostResult where
  printed : List String
  spawned : List (List String)
  childResults : List Nat
  outcome : Outcome
deriving DecidableEq

/-- Observable result of one invocation of the whole script. -/
structure RunResult where
  endpoint : String
  dbName : String
  collName : String
  storeOps : List StoreOp
  finalStore : Store
  printed : List String
  spawned : List (List String)
  childResults : List Nat
  outcome : Outcome
deriving DecidableEq

/-- The `No pending job found.` branch of lines 15-17: print the notice and
`sys.exit(0)`, spawning nothing. -/
def noPendingResult : PostResult :=
  { printed := ["No pending job found."]
    spawned := []
    childResults := []
    outcome := .exited 0 }

/-- Lines 15-23 of the script, as a function of the `find_one` result.
`if not job:` branches on Python truthiness; otherwise `str(job["_id"])` is
taken (`KeyError` if the field is absent), `Running job: <id>` is printed,
and `subprocess.run(["python", "downloader.py", job_id])` waits for the
child and discards its status; the module then ends (exit code 0). -/
def afterQuery (job : Option Doc) (childExit : Nat) : PostResult :=
  if pyFalsy job then
    noPendingResult
  else
    match job with
    | none => noPendingResult
    | some d =>
      match docGet d "_id" with
      | none =>
        { printed := []
          spawned := []
          childResults := []
          outcome := .crashed "KeyError: _id" }
      | some job_id =>
        { printed := ["Running job: " ++ job_id]
          spawned := [["python", "downloader.py", job_id]]
          childResults := [childExit]
          outcome := .exited 0 }

/-- One invocation of `run_with_job_id.py` against a world. The endpoint is
`os.environ.get("MONGO_URI", "mongodb://localhost:27017")`; the database
and collection names are the literals of lines 9-10; exactly one `findOne`
is attempted; when the store is unreachable the query raises and the
uncaught exception aborts the process before either notice is printed or
any child is spawned. -/
def runScript (w : World) : RunResult :=
  let mongo_uri := envGet w.env "MONGO_URI" "mongodb://localhost:27017"
  let ops : List StoreOp := [StoreOp.findOne "jobStatus" "pending"]
  if w.storeUp then
    let job := find_one w.store isPending
    let post := afterQuery job w.childExit
    { endpoint := mongo_uri
      dbName := "filesure"
      collName := "jobs"
      storeOps := ops
      finalStore := applyOps w.store ops
      printed := post.printed
      spawned := post.spawned
      childResults := post.childResults
      outcome := post.outcome }
  else
    { endpoint := mongo_uri
      dbName := "filesure"
      collName := "jobs"
      storeOps := ops
      finalStore := applyOps w.store ops
      printed := []
      spawned := []
      childResults := []
      outcome := .crashed w.diag }

/-! Helper lemmas. -/

/-- `find?` returns the head of the filtered list. -/
theorem find_one_eq_head_filter {α : Type} (p : α → Bool) (l : List α) :
    l.find? p = (l.filter p).head? := by
  induction l with
  | nil => rfl
  | cons a t ih =>
    by_cases h : p a
    · rw [List.find?_cons_of_pos _ h, List.filter_cons_of_pos h, List.head?_cons]
    · rw [List.find?_cons_of_neg _ h, List.filter_cons_of_neg h, ih]

/-- A document with a readable field is nonempty. -/
theorem docGet_ne_empty {d : Doc} {k v : String} (h : docGet d k = some v) :
    d.isEmpty = false := by
  cases d with
  | nil => simp [docGet] at h
  | cons a t => rfl

/-- The printed lines, spawned processes and outcome of the post-query part
do not depend on the exit status of the child. -/
theorem afterQuery_const_child (job : Option Doc) (c₁ c₂ : Nat) :
    (afterQuery job c₁).printed = (afterQuery job c₂).printed ∧
    (afterQuery job c₁).spawned = (afterQuery job c₂).spawned ∧
    (afterQuery job c₁).outcome = (afterQuery job c₂).outcome := by
  unfold afterQuery
  cases job with
  | none => simp [pyFalsy]
  | some d =>
    cases he : d.isEmpty
    · cases hg : docGet d "_id" <;> simp [pyFalsy, he, hg]
    · simp [pyFalsy, he]

/-! Concrete inputs used by the witnesses. -/

/-- A pending job record carrying the identifier of the spec's example. -/
def dPend1 : Doc := [("_id", "507f1f77bcf86cd799439011"), ("jobStatus", "pending")]

/-- Store with exactly the one pending record above. -/
def wC1 : World :=
  { env := [], storeUp := true, diag := "", store := [dPend1], childExit := 0 }

/-- Store holding only a non-pending record. -/
def wC2 : World :=
  { env := [], storeUp := true, diag := ""
    store := [[("_id", "a1"), ("jobStatus", "done")]], childExit := 0 }

/-- A pending record used to exercise the failing-child scenario. -/
def dPend3 : Doc := [("_id", "64aa000000000000000000c3"), ("jobStatus", "pending")]

/-- World whose downloader child exits with the nonzero status 3. -/
def wC3 : World :=
  { env := [], storeUp := true, diag := "", store := [dPend3], childExit := 3 }

/-- Environment without `MONGO_URI`. -/
def wC5a : World :=
  { env := [("PATH", "/usr/bin")], storeUp := true, diag := "", store := []
    childExit := 0 }

/-- Environment with `MONGO_URI` set to a non-default endpoint. -/
def wC5b : World :=
  { env := [("MONGO_URI", "mongodb://db.example:27017")], storeUp := true
    diag := "", store := [], childExit := 0 }

/-- First of two pending records. -/
def dPend6a : Doc := [("_id", "64aa000000000000000000a6"), ("jobStatus", "pending")]

/-- Second of two pending records. -/
def dPend6b : Doc := [("_id", "64aa000000000000000000b6"), ("jobStatus", "pending")]

/-- Store holding two pending records. -/
def wC6 : World :=
  { env := [], storeUp := true, diag := "", store := [dPend6a, dPend6b]
    childExit := 0 }

/-- World whose store is unreachable. -/
def wC7 : World :=
  { env := [], storeUp := false, diag := "ServerSelectionTimeoutError"
    store := [dPend1], childExit := 0 }

/-- A pending record seen by both runs of the determinism witness. -/
def dPend10 : Doc := [("_id", "64aa00000000000000000d10"), ("jobStatus", "pending")]

/-- First run: `MONGO_URI` unset, store holds just the pending record. -/
def wC10a : World :=
  { env := [], storeUp := true, diag := "", store := [dPend10], childExit := 0 }

/-- Second run: `MONGO_URI` set explicitly to the default, an extra
non-pending record ahead of the same pending record, different child exit. -/
def wC10b : World :=
  { env := [("MONGO_URI", "mongodb://localhost:27017")], storeUp := true
    diag := "", store := [[("_id", "z9"), ("jobStatus", "done")], dPend10]
    childExit := 9 }

/-! The claims. -/

/-- C1: for a reachable store whose records contain exactly one with
`jobStatus = "pending"`, and that record's identifier renders as
`507f1f77bcf86cd799439011`, the script prints exactly the line
`Running job: 507f1f77bcf86cd799439011` and spawns the downloader exactly
once, with that identifier as its only argument after the fixed command
prefix. -/
theorem C1_single_pending_dispatches (w : World) (d : Doc)
    (hup : w.storeUp = true)
    (hfilter : w.store.filter isPending = [d])
    (hid : docGet d "_id" = some "507f1f77bcf86cd799439011") :
    (runScript w).printed = ["Running job: 507f1f77bcf86cd799439011"] ∧
    (runScript w).spawned =
      [["python", "downloader.py", "507f1f77bcf86cd799439011"]] ∧
    (runScript w).spawned.length = 1 := by
  have hfind : find_one w.store isPending = some d := by
    rw [find_one, find_one_eq_head_filter, hfilter]
    rfl
  have hne : d.isEmpty = false := docGet_ne_empty hid
  refine ⟨?_, ?_, ?_⟩ <;>
    simp [runScript, hup, hfind, afterQuery, pyFalsy, hne, hid]

/-- Witness for C1: the single-record store with the spec's example
identifier. -/
theorem C1_witness :
    (runScript wC1).printed = ["Running job: 507f1f77bcf86cd799439011"] ∧
    (runScript wC1).spawned =
      [["python", "downloader.py", "507f1f77bcf86cd799439011"]] ∧
    (runScript wC1).spawned.length = 1 :=
  C1_single_pending_dispatches wC1 dPend1 rfl (by decide) (by decide)

/-- C2: for a reachable store with no pending record, the script prints the
`No pending job found.` notice, exits with code 0, and spawns no child. -/
theorem C2_no_pending_exits_zero (w : World)
    (hup : w.storeUp = true)
    (hnone : ∀ d ∈ w.store, isPending d = false) :
    (runScript w).printed = ["No pending job found."] ∧
    (runScript w).outcome = Outcome.exited 0 ∧
    (runScript w).spawned = [] := by
  have hfind : find_one w.store isPending = none := by
    rw [find_one, List.find?_eq_none]
    intro x hx
    simp [hnone x hx]
  refine ⟨?_, ?_, ?_⟩ <;>
    simp [runScript, hup, hfind, afterQuery, pyFalsy, noPendingResult]

/-- Witness for C2: a store whose only record is not pending. -/
theorem C2_witness :
    (runScript wC2).printed = ["No pending job found."] ∧
    (runScript wC2).outcome = Outcome.exited 0 ∧
    (runScript wC2).spawned = [] :=
  C2_no_pending_exits_zero wC2 rfl (by decide)

/-- C3: when a job is dispatched, the script waits for the child downloader
to terminate (its exit status is recorded as awaited), and for every child
exit status, including nonzero ones, the script's own outcome is normal
termination with code 0 and its printed and spawned observables are
unchanged: the child's status is neither inspected nor propagated. -/
theorem C3_child_status_not_propagated (w : World) (d : Doc) (i : String)
    (hup : w.storeUp = true)
    (hfind : find_one w.store isPending = some d)
    (hid : docGet d "_id" = some i) :
    (runScript w).childResults = [w.childExit] ∧
    (∀ c : Nat,
      (runScript { w with childExit := c }).outcome = Outcome.exited 0 ∧
      (runScript { w with childExit := c }).printed = (runScript w).printed ∧
      (runScript { w with childExit := c }).spawned = (runScript w).spawned) := by
  have hne : d.isEmpty = false := docGet_ne_empty hid
  constructor
  · simp [runScript, hup, hfind, afterQuery, pyFalsy, hne, hid]
  · intro c
    refine ⟨?_, ?_, ?_⟩ <;>
      simp [runScript, hup, hfind, afterQuery, pyFalsy, hne, hid]

/-- Witness for C3: a run whose child exits with the nonzero status 3, and
the same run forced to child status 5, both reported successful. -/
theorem C3_witness :
    (runScript wC3).childResults = [3] ∧
    (runScript { wC3 with childExit := 5 }).outcome = Outcome.exited 0 :=
  ⟨(C3_child_status_not_propagated wC3 dPend3 "64aa000000000000000000c3"
      rfl (by decide) (by decide)).1,
   ((C3_child_status_not_propagated wC3 dPend3 "64aa000000000000000000c3"
      rfl (by decide) (by decide)).2 5).1⟩

/-- C4: on every world, the trace of store operations the script issues
consists of reads only (one `findOne`; no insert, update, delete or lock
acquisition), and applying that trace to the store leaves the record set
identical. -/
theorem C4_store_read_only (w : World) :
    (runScript w).storeOps.all StoreOp.isRead = true ∧
    (runScript w).storeOps = [StoreOp.findOne "jobStatus" "pending"] ∧
    (runScript w).finalStore = w.store := by
  cases hb : w.storeUp <;>
    refine ⟨?_, ?_, ?_⟩ <;>
      simp [runScript, hb, applyOps, applyOp, StoreOp.isRead]

/-- C5: the connection endpoint is the value of `MONGO_URI` when that
environment variable is set, and `mongodb://localhost:27017` when it is
unset. -/
theorem C5_endpoint_default (w : World) :
    (w.env.find? (fun p => p.1 == "MONGO_URI") = none →
      (runScript w).endpoint = "mongodb://localhost:27017") ∧
    (∀ u : String × String,
      w.env.find? (fun p => p.1 == "MONGO_URI") = some u →
      (runScript w).endpoint = u.2) := by
  constructor
  · intro h
    cases hb : w.storeUp <;> simp [runScript, hb, envGet, h]
  · intro u h
    cases hb : w.storeUp <;> simp [runScript, hb, envGet, h]

/-- Witness for C5: an environment without `MONGO_URI` connects to the
default local endpoint; one with it set connects to the set value. -/
theorem C5_witness :
    (runScript wC5a).endpoint = "mongodb://localhost:27017" ∧
    (runScript wC5b).endpoint = "mongodb://db.example:27017" :=
  ⟨(C5_endpoint_default wC5a).1 (by decide),
   (C5_endpoint_default wC5b).2 ("MONGO_URI", "mongodb://db.example:27017")
     (by decide)⟩

/-- C6: for a reachable store holding at least two pending records, the one
the query returns is a pending record of the store — the first in the
store's default retrieval order — and the downloader is spawned exactly
once, with that record's identifier. -/
theorem C6_multiple_pending_selects_one (w : World) (d : Doc) (i : String)
    (hup : w.storeUp = true)
    (_hmany : 2 ≤ (w.store.filter isPending).length)
    (hfind : find_one w.store isPending = some d)
    (hid : docGet d "_id" = some i) :
    d ∈ w.store ∧ isPending d = true ∧
    (w.store.filter isPending).head? = some d ∧
    (runScript w).spawned = [["python", "downloader.py", i]] ∧
    (runScript w).spawned.length = 1 := by
  have hmem : d ∈ w.store := List.mem_of_find?_eq_some hfind
  have hp : isPending d = true := List.find?_some hfind
  have hhead : (w.store.filter isPending).head? = some d := by
    rw [← find_one_eq_head_filter]
    exact hfind
  have hne : d.isEmpty = false := docGet_ne_empty hid
  refine ⟨hmem, hp, hhead, ?_, ?_⟩ <;>
    simp [runScript, hup, hfind, afterQuery, pyFalsy, hne, hid]

/-- Witness for C6: a store with two pending records dispatches the first
one only. -/
theorem C6_witness :
    dPend6a ∈ wC6.store ∧ isPending dPend6a = true ∧
    (wC6.store.filter isPending).head? = some dPend6a ∧
    (runScript wC6).spawned =
      [["python", "downloader.py", "64aa000000000000000000a6"]] ∧
    (runScript wC6).spawned.length = 1 :=
  C6_multiple_pending_selects_one wC6 dPend6a "64aa000000000000000000a6"
    rfl (by decide) (by decide) (by decide)

/-- C7: when the store is unreachable, the uncaught failure terminates the
run abnormally with the runtime's diagnostic; neither notice is printed, no
child is spawned, and exactly one query was attempted (no retry). -/
theorem C7_store_failure_uncaught (w : World)
    (hdown : w.storeUp = false) :
    (runScript w).outcome = Outcome.crashed w.diag ∧
    (runScript w).printed = [] ∧
    (runScript w).spawned = [] ∧
    (runScript w).storeOps = [StoreOp.findOne "jobStatus" "pending"] := by
  refine ⟨?_, ?_, ?_, ?_⟩ <;> simp [runScript, hdown]

/-- Witness for C7: an unreachable store aborts with the runtime
diagnostic and spawns nothing. -/
theorem C7_witness :
    (runScript wC7).outcome =
      Outcome.crashed "ServerSelectionTimeoutError" ∧
    (runScript wC7).printed = [] ∧
    (runScript wC7).spawned = [] ∧
    (runScript wC7).storeOps = [StoreOp.findOne "jobStatus" "pending"] :=
  C7_store_failure_uncaught wC7 rfl

/-- C8: the not-found branch is decided by Python truthiness: for every
falsy query result — `None`, and also any other falsy value such as the
empty document — the post-query code yields exactly the constant
`No pending job found.` result (notice printed, exit code 0, nothing
spawned), independent of the result's contents, so no field of the result
is read. -/
theorem C8_falsy_takes_notice_branch (job : Option Doc) (c : Nat)
    (hfalsy : pyFalsy job = true) :
    afterQuery job c = noPendingResult ∧
    (afterQuery job c).printed = ["No pending job found."] ∧
    (afterQuery job c).outcome = Outcome.exited 0 ∧
    (afterQuery job c).spawned = [] := by
  have h : afterQuery job c = noPendingResult := by
    simp [afterQuery, hfalsy]
  exact ⟨h, by rw [h]; rfl, by rw [h]; rfl, by rw [h]; rfl⟩

/-- Witness for C8: the empty document — falsy but not `None` — takes the
notice branch. -/
theorem C8_witness :
    afterQuery (some []) 7 = noPendingResult ∧
    (afterQuery (some []) 7).printed = ["No pending job found."] ∧
    (afterQuery (some []) 7).outcome = Outcome.exited 0 ∧
    (afterQuery (some []) 7).spawned = [] :=
  C8_falsy_takes_notice_branch (some []) 7 (by decide)

/-- C9: on every world the database name is `filesure`, the collection name
is `jobs`, the endpoint is determined by `MONGO_URI` alone, and every
spawned child command is `["python", "downloader.py", i]` where only `i` —
the text rendering of the `_id` of the record the query returned — varies
between runs. -/
theorem C9_fixed_constants (w : World) :
    (runScript w).dbName = "filesure" ∧
    (runScript w).collName = "jobs" ∧
    (runScript w).endpoint =
      envGet w.env "MONGO_URI" "mongodb://localhost:27017" ∧
    ((runScript w).spawned = [] ∨
      ∃ d i, find_one w.store isPending = some d ∧
        docGet d "_id" = some i ∧
        (runScript w).spawned = [["python", "downloader.py", i]]) := by
  cases hb : w.storeUp
  · refine ⟨?_, ?_, ?_, Or.inl ?_⟩ <;> simp [runScript, hb]
  · refine ⟨by simp [runScript, hb], by simp [runScript, hb],
      by simp [runScript, hb], ?_⟩
    cases hj : find_one w.store isPending with
    | none =>
      refine Or.inl ?_
      simp [runScript, hb, hj, afterQuery, pyFalsy, noPendingResult]
    | some d =>
      cases he : d.isEmpty
      · cases hg : docGet d "_id" with
        | none =>
          refine Or.inl ?_
          simp [runScript, hb, hj, afterQuery, pyFalsy, he, hg]
        | some i =>
          refine Or.inr ⟨d, i, rfl, hg, ?_⟩
          simp [runScript, hb, hj, afterQuery, pyFalsy, he, hg]
      · refine Or.inl ?_
        simp [runScript, hb, hj, afterQuery, pyFalsy, he, noPendingResult]

/-- C10: determinism in the declared inputs: two runs against reachable
stores that agree on the resolved `MONGO_URI` value and on the record the
query returns print the same lines, spawn the same argument vectors, end
with the same outcome and connect to the same endpoint — even when the
rest of the environment, the other records, or the child's exit status
differ. -/
theorem C10_deterministic (w₁ w₂ : World)
    (hup₁ : w₁.storeUp = true) (hup₂ : w₂.storeUp = true)
    (henv : envGet w₁.env "MONGO_URI" "mongodb://localhost:27017" =
            envGet w₂.env "MONGO_URI" "mongodb://localhost:27017")
    (hq : find_one w₁.store isPending = find_one w₂.store isPending) :
    (runScript w₁).printed = (runScript w₂).printed ∧
    (runScript w₁).spawned = (runScript w₂).spawned ∧
    (runScript w₁).outcome = (runScript w₂).outcome ∧
    (runScript w₁).endpoint = (runScript w₂).endpoint := by
  obtain ⟨hp, hs, ho⟩ :=
    afterQuery_const_child (find_one w₂.store isPending) w₁.childExit w₂.childExit
  refine ⟨?_, ?_, ?_, ?_⟩ <;>
    simp [runScript, hup₁, hup₂, hq, henv, hp, hs, ho]

/-- Witness for C10: `MONGO_URI` unset versus set to the same default, an
extra non-pending record, and a different child exit status leave the
observables identical. -/
theorem C10_witness :
    (runScript wC10a).printed = (runScript wC10b).printed ∧
    (runScript wC10a).spawned = (runScript wC10b).spawned ∧
    (runScript wC10a).outcome = (runScript wC10b).outcome ∧
    (runScript wC10a).endpoint = (runScript wC10b).endpoint :=
  C10_deterministic wC10a wC10b rfl rfl (by decide) (by decide)

end RunWithJobId
